import Mathlib

/-!
# Verification of the BRIDGE Hub core pipeline

A shallow embedding, in Lean 4, of the fraud-intelligence hub's core
components: the decay engine (`bridge_hub/decay_engine.py`), the escalation
engine (`bridge_hub/escalation_engine.py`), the temporal correlator
(`bridge_hub/temporal_correlator.py`), the behavioral risk graph
(`bridge_hub/brg_graph.py`), the ingest orchestration
(`bridge_hub/main.py`) and configuration validation
(`bridge_hub/config.py`).

Times (seconds), confidences and scores are modelled as rationals `ℚ`;
Python's `round(x, n)` (banker's rounding to `n` decimals) and `int(x)`
(truncation toward zero) are modelled explicitly.
-/

namespace BridgeHub

/-! ## Pattern status (decay_engine.PatternStatus) -/

/-- Pattern lifecycle states, from `decay_engine.PatternStatus`. -/
inductive PatternStatus
  | ACTIVE
  | COOLING
  | DORMANT
deriving DecidableEq

/-! ## Python numeric helpers -/

/-- Models Python's `round` to an integer: round half to even (banker's rounding). -/
def pyRoundInt (x : ℚ) : ℤ :=
  let n := ⌊x⌋
  let frac := x - n
  if frac < 1/2 then n
  else if 1/2 < frac then n + 1
  else if 2 ∣ n then n else n + 1

/-- Models Python's `round(x, 4)`. -/
def round4 (x : ℚ) : ℚ := (pyRoundInt (x * 10000) : ℚ) / 10000

/-- Models Python's `round(x, 2)`. -/
def round2 (x : ℚ) : ℚ := (pyRoundInt (x * 100) : ℚ) / 100

/-- Models Python's `int(x)`: truncation toward zero. -/
def pyInt (x : ℚ) : ℤ := if 0 ≤ x then ⌊x⌋ else ⌈x⌉

/-! ## Decay engine (decay_engine.DecayEngine) -/

/-- One decay window: `max_seconds` (`none` stands for `float('inf')`) and
the window's `decay_score`. -/
structure DecayWindow where
  max_seconds : Option ℚ
  decay_score : ℚ
deriving DecidableEq

/-- The default decay window table, in evaluation order
(`fresh`, `recent`, `aging`, `stale`), from `DecayEngine.__init__`. -/
def defaultDecayWindows : List DecayWindow :=
  [⟨some 120, 1⟩, ⟨some 300, 4/5⟩, ⟨some 600, 1/2⟩, ⟨none, 1/5⟩]

/-- The loop body of `calculate_decay_score`: walk the windows in order and
return the score of the first window whose `max_seconds` bound is satisfied
(`delta_seconds <= max_seconds`); the default when no window matches is the
stale score `0.2`. -/
def lookupDecayScore : List DecayWindow → ℚ → ℚ
  | [], _ => 1/5
  | w :: rest, delta =>
    match w.max_seconds with
    | none => w.decay_score
    | some m => if delta ≤ m then w.decay_score else lookupDecayScore rest delta

/-- Embeds `DecayEngine.calculate_decay_score` with the default window table. -/
def calculate_decay_score (last_seen_timestamp current_timestamp : ℚ) : ℚ :=
  lookupDecayScore defaultDecayWindows (current_timestamp - last_seen_timestamp)

/-- Status thresholds (`DecayEngine.status_thresholds`). -/
structure StatusThresholds where
  active_min : ℚ
  cooling_min : ℚ
deriving DecidableEq

/-- The default thresholds: `active_min = 0.7`, `cooling_min = 0.4`. -/
def defaultThresholds : StatusThresholds := ⟨7/10, 2/5⟩

/-- Embeds `DecayEngine.calculate_effective_confidence`:
`round(min(1.0, max(0.0, base * decay)), 4)`. -/
def calculate_effective_confidence (base_confidence decay_score : ℚ) : ℚ :=
  round4 (min 1 (max 0 (base_confidence * decay_score)))

/-- Embeds `DecayEngine.determine_pattern_status`. -/
def determine_pattern_status (th : StatusThresholds) (effective_confidence : ℚ) :
    PatternStatus :=
  if th.active_min ≤ effective_confidence then .ACTIVE
  else if th.cooling_min ≤ effective_confidence then .COOLING
  else .DORMANT

/-- The dictionary returned by `DecayEngine.apply_decay` and
`DecayEngine.reactivate_pattern`. -/
structure DecayResult where
  pattern_id : String
  base_confidence : ℚ
  decay_score : ℚ
  effective_confidence : ℚ
  status : PatternStatus
  last_seen_timestamp : ℚ
  current_timestamp : ℚ
  time_since_last_seen_seconds : ℚ
  reactivated : Bool
deriving DecidableEq

/-- Embeds `DecayEngine.apply_decay` (with default windows and thresholds). -/
def apply_decay (pattern_id : String) (base_confidence : ℚ)
    (last_seen_timestamp current_timestamp : ℚ) : DecayResult :=
  let decay_score := calculate_decay_score last_seen_timestamp current_timestamp
  let effective_confidence := calculate_effective_confidence base_confidence decay_score
  { pattern_id := pattern_id
    base_confidence := round4 base_confidence
    decay_score := decay_score
    effective_confidence := effective_confidence
    status := determine_pattern_status defaultThresholds effective_confidence
    last_seen_timestamp := last_seen_timestamp
    current_timestamp := current_timestamp
    time_since_last_seen_seconds := round2 (current_timestamp - last_seen_timestamp)
    reactivated := false }

/-- Embeds `DecayEngine.reactivate_pattern`. -/
def reactivate_pattern (pattern_id : String) (new_base_confidence : ℚ)
    (current_timestamp : ℚ) : DecayResult :=
  let decay_score : ℚ := 1
  let effective_confidence := calculate_effective_confidence new_base_confidence decay_score
  { pattern_id := pattern_id
    base_confidence := round4 new_base_confidence
    decay_score := decay_score
    effective_confidence := effective_confidence
    status := determine_pattern_status defaultThresholds effective_confidence
    last_seen_timestamp := current_timestamp
    current_timestamp := current_timestamp
    time_since_last_seen_seconds := 0
    reactivated := true }

/-! ## Escalation engine (escalation_engine.EscalationEngine) -/

/-- Embeds `models.CorrelationResult` (the fields the escalation engine reads; the
`observations` list is carried separately by the correlator below). -/
structure CorrelationResult where
  fingerprint : String
  entity_count : ℕ
  time_span_seconds : ℚ
  confidence : String
  base_confidence : ℚ
  decay_score : ℚ
  effective_confidence : ℚ
  last_seen_timestamp : ℚ
  pattern_status : PatternStatus
deriving DecidableEq

/-- Embeds `EscalationEngine._calculate_fraud_score`:
`score = min(entity_count * 20, 60)`, then `score += int(effective_confidence * 30)`,
then `score -= 10` when `time_span_seconds > 600`, then `max(0, min(100, score))`. -/
def calculate_fraud_score (c : CorrelationResult) : ℤ :=
  let score : ℤ := min ((c.entity_count : ℤ) * 20) 60
  let score := score + pyInt (c.effective_confidence * 30)
  let score := if 600 < c.time_span_seconds then score - 10 else score
  max 0 (min 100 score)

/-- Modelled from the spec's words (§4.4): the fraud-score formula
`clamp( min(n × 20, 60) + round(effective_confidence × 30) − (10 if span > 600 s else 0), 0, 100 )`,
with `round` the rounding to the nearest integer (Mathlib's `round`). -/
def spec_fraud_score (n : ℕ) (span effective : ℚ) : ℤ :=
  max 0 (min 100
    (min ((n : ℤ) * 20) 60 + round (effective * 30) - (if 600 < span then 10 else 0)))

/-- Embeds `EscalationEngine._calculate_severity` with thresholds
`(critical, high, medium)`. -/
def calculate_severity (critical_threshold high_threshold medium_threshold : ℤ)
    (entity_count : ℤ) : Option String :=
  if critical_threshold ≤ entity_count then some "CRITICAL"
  else if high_threshold ≤ entity_count then some "HIGH"
  else if medium_threshold ≤ entity_count then some "MEDIUM"
  else none

/-! ## Configuration (config.py and the /admin/config/update endpoint) -/

/-- The hub configuration fields checked by `config.validate_config`. -/
structure HubConfig where
  entity_threshold : ℤ
  time_window_seconds : ℤ
  critical_threshold : ℤ
  high_threshold : ℤ
  medium_threshold : ℤ
  max_graph_age_seconds : ℤ
  prune_interval_seconds : ℤ
  port : ℤ
deriving DecidableEq

/-- The default configuration from `config.load_config` (numeric fields). -/
def defaultConfig : HubConfig :=
  { entity_threshold := 2
    time_window_seconds := 300
    critical_threshold := 4
    high_threshold := 3
    medium_threshold := 2
    max_graph_age_seconds := 3600
    prune_interval_seconds := 300
    port := 8000 }

/-- Embeds `config.validate_config`: raises `ValueError` (here `Except.error`) on the
first violated check, in source order. -/
def validate_config (c : HubConfig) : Except String Unit :=
  if c.entity_threshold < 1 then
    .error "entity_threshold must be at least 1"
  else if c.time_window_seconds < 1 then
    .error "time_window_seconds must be at least 1"
  else if ¬ (1 ≤ c.medium_threshold ∧ c.medium_threshold ≤ c.high_threshold ∧
      c.high_threshold ≤ c.critical_threshold) then
    .error "Escalation thresholds must be ordered medium, high, critical"
  else if c.max_graph_age_seconds < 60 then
    .error "max_graph_age_seconds must be at least 60"
  else if c.prune_interval_seconds < 10 then
    .error "prune_interval_seconds must be at least 10"
  else if ¬ (1 ≤ c.port ∧ c.port ≤ 65535) then
    .error "port must be between 1 and 65535"
  else
    .ok ()

/-- A runtime configuration update: the threshold keys the
`/admin/config/update` endpoint forwards to the correlator and the
escalation engine (a key absent from the request dict is `none`). -/
structure ConfigUpdate where
  entity_threshold : Option ℤ
  time_window_seconds : Option ℤ
  critical_threshold : Option ℤ
  high_threshold : Option ℤ
  medium_threshold : Option ℤ
deriving DecidableEq

/-- The `/admin/config/update` endpoint of `main.py`: every key present in
the request is applied to the running components and merged into the global
config dict (`config.update(new_config)`); no validation is performed and
the handler always returns success. -/
def update_config_endpoint (c : HubConfig) (u : ConfigUpdate) : HubConfig :=
  { c with
    entity_threshold := u.entity_threshold.getD c.entity_threshold
    time_window_seconds := u.time_window_seconds.getD c.time_window_seconds
    critical_threshold := u.critical_threshold.getD c.critical_threshold
    high_threshold := u.high_threshold.getD c.high_threshold
    medium_threshold := u.medium_threshold.getD c.medium_threshold }

/-! ## Behavioral Risk Graph (brg_graph.BehavioralRiskGraph) -/

/-- The `node_type` attribute of a BRG node. -/
inductive NodeType
  | pattern
  | entity
deriving DecidableEq

/-- A node of the BRG. Entity nodes carry only `id` and `node_type`
(the remaining attributes are meaningful for pattern nodes only, matching
the attribute dictionaries `add_pattern_observation` writes). -/
structure BRGNode where
  id : String
  node_type : NodeType
  first_seen : ℚ
  last_seen : ℚ
  observation_count : ℕ
  base_confidence : ℚ
  decay_score : ℚ
  effective_confidence : ℚ
  last_seen_timestamp : ℚ
  pattern_status : PatternStatus
deriving DecidableEq

/-- An OBSERVED_AT observation edge (entity → pattern, multi-edge). -/
structure Edge where
  entity_id : String
  fingerprint : String
  timestamp : ℚ
  severity : String
deriving DecidableEq

/-- The BRG state: node list, edge list, the configured retention horizon
(`max_age_seconds` / `time_window`) and the running observation counter. -/
structure Graph where
  nodes : List BRGNode
  edges : List Edge
  max_age : ℚ
  observation_count : ℕ
deriving DecidableEq

/-- A fresh entity node (only `id` and `node_type` are meaningful). -/
def mkEntityNode (entity_id : String) : BRGNode :=
  { id := entity_id, node_type := .entity, first_seen := 0, last_seen := 0,
    observation_count := 0, base_confidence := 0, decay_score := 1,
    effective_confidence := 0, last_seen_timestamp := 0,
    pattern_status := .ACTIVE }

/-- The decay fields passed to `add_pattern_observation`. -/
structure DecayFields where
  base_confidence : ℚ
  decay_score : ℚ
  effective_confidence : ℚ
  pattern_status : PatternStatus
deriving DecidableEq

/-- The per-node effect of the decay-field overwrite in
`add_pattern_observation` (the `else` branch of the `has_node` check):
the node keyed by `fingerprint` gets the new decay fields and
`last_seen_timestamp`, every other node is untouched. -/
def updateDecayFieldsNode (fingerprint : String) (timestamp : ℚ)
    (f : DecayFields) (nd : BRGNode) : BRGNode :=
  if nd.id = fingerprint then
    { nd with base_confidence := f.base_confidence
              decay_score := f.decay_score
              effective_confidence := f.effective_confidence
              last_seen_timestamp := timestamp
              pattern_status := f.pattern_status }
  else nd

/-- The pattern node created on first sight (`observation_count = 0`,
`first_seen = last_seen = timestamp`). -/
def createdPatternNode (fingerprint : String) (timestamp : ℚ)
    (f : DecayFields) : BRGNode :=
  { id := fingerprint, node_type := .pattern,
    first_seen := timestamp, last_seen := timestamp,
    observation_count := 0,
    base_confidence := f.base_confidence,
    decay_score := f.decay_score,
    effective_confidence := f.effective_confidence,
    last_seen_timestamp := timestamp,
    pattern_status := f.pattern_status }

/-- The per-node effect of the unconditional
`observation_count += 1; last_seen = timestamp` writes in
`add_pattern_observation`. -/
def bumpObservationNode (fingerprint : String) (timestamp : ℚ)
    (nd : BRGNode) : BRGNode :=
  if nd.id = fingerprint then
    { nd with observation_count := nd.observation_count + 1,
              last_seen := timestamp }
  else nd

/-- Embeds `BehavioralRiskGraph.add_pattern_observation`. Creates or updates the
pattern node keyed by `fingerprint` (overwriting its decay fields and
`last_seen_timestamp`), then increments `observation_count` and assigns
`last_seen := timestamp`, creates the entity node if absent, appends the
observation edge, and bumps the global observation counter. -/
def add_pattern_observation (g : Graph) (fingerprint entity_id severity : String)
    (timestamp : ℚ) (f : DecayFields) : Graph :=
  let nodes0 :=
    if g.nodes.any (fun nd => nd.id = fingerprint) then
      g.nodes.map (updateDecayFieldsNode fingerprint timestamp f)
    else
      g.nodes ++ [createdPatternNode fingerprint timestamp f]
  let nodes1 := nodes0.map (bumpObservationNode fingerprint timestamp)
  let nodes2 :=
    if nodes1.any (fun nd => nd.id = entity_id) then nodes1
    else nodes1 ++ [mkEntityNode entity_id]
  { g with nodes := nodes2,
           edges := g.edges ++ [⟨entity_id, fingerprint, timestamp, severity⟩],
           observation_count := g.observation_count + 1 }

/-- One entry of the list `get_recent_observations` returns. -/
structure Observation where
  entity_id : String
  timestamp : ℚ
  severity : String
deriving DecidableEq

/-- Embeds `BehavioralRiskGraph.get_recent_observations`: when the pattern node
exists, all edges into `fingerprint` with `timestamp > now − window`,
sorted by timestamp ascending (Python's stable `list.sort`). -/
def get_recent_observations (g : Graph) (fingerprint : String)
    (time_window now : ℚ) : List Observation :=
  let cutoff_time := now - time_window
  let observations :=
    if g.nodes.any (fun nd => nd.id = fingerprint) then
      (g.edges.filter (fun e =>
        e.fingerprint = fingerprint ∧ cutoff_time < e.timestamp)).map
        (fun e => ⟨e.entity_id, e.timestamp, e.severity⟩)
    else []
  observations.mergeSort (fun a b => a.timestamp ≤ b.timestamp)

/-- Used by `BehavioralRiskGraph.prune_expired_edges`: the degree of a node in the
post-removal edge list (a MultiDiGraph degree counts both in- and
out-edges). -/
def degreeIn (edges : List Edge) (id : String) : ℕ :=
  (edges.filter (fun e => e.entity_id = id ∨ e.fingerprint = id)).length

/-- Embeds `BehavioralRiskGraph.prune_expired_edges`: removes every edge with
`timestamp < now − max_age`, then removes the nodes whose degree is zero
and whose `node_type` is `pattern`; returns the number of removed edges
and the pruned graph. -/
def prune_expired_edges (g : Graph) (now : ℚ) : ℕ × Graph :=
  let cutoff_time := now - g.max_age
  let kept := g.edges.filter (fun e => ¬ e.timestamp < cutoff_time)
  let removed := g.edges.filter (fun e => e.timestamp < cutoff_time)
  let nodes1 := g.nodes.filter (fun nd =>
    ¬ (degreeIn kept nd.id = 0 ∧ nd.node_type = NodeType.pattern))
  (removed.length, { g with nodes := nodes1, edges := kept })

/-! ## Temporal correlator (temporal_correlator.TemporalCorrelator) -/

/-- Embeds `TemporalCorrelator._calculate_confidence`. -/
def calculate_confidence (entity_count : ℕ) (time_span : ℚ) : String :=
  if 3 ≤ entity_count ∧ time_span < 180 then "HIGH"
  else if 2 ≤ entity_count ∧ time_span < 300 then "MEDIUM"
  else "LOW"

/-- The `confidence_map` dict lookup with default `0.5`:
`{"LOW": 0.5, "MEDIUM": 0.75, "HIGH": 0.9}.get(s, 0.5)`. -/
def confidence_map (s : String) : ℚ :=
  if s = "LOW" then 1/2
  else if s = "MEDIUM" then 3/4
  else if s = "HIGH" then 9/10
  else 1/2

/-- Embeds `TemporalCorrelator.detect_correlation` (the `observations` list the
Python result carries is recoverable as `get_recent_observations` of the
same arguments). -/
def detect_correlation (g : Graph) (fingerprint : String)
    (entity_threshold : ℕ) (time_window_seconds now : ℚ) :
    Option CorrelationResult :=
  let observations := get_recent_observations g fingerprint time_window_seconds now
  if hobs : observations = [] then none
  else
    let entity_count := (observations.map (fun o => o.entity_id)).dedup.length
    if entity_count < entity_threshold then none
    else
      let time_span :=
        if 1 < observations.length then
          (observations.getLast hobs).timestamp - (observations.head hobs).timestamp
        else 0
      let confidence_str := calculate_confidence entity_count time_span
      let base_confidence := confidence_map confidence_str
      let last_seen := (observations.getLast hobs).timestamp
      let decay_result := apply_decay fingerprint base_confidence last_seen now
      some { fingerprint := fingerprint
             entity_count := entity_count
             time_span_seconds := time_span
             confidence := confidence_str
             base_confidence := base_confidence
             decay_score := decay_result.decay_score
             effective_confidence := decay_result.effective_confidence
             last_seen_timestamp := last_seen
             pattern_status := decay_result.status }

/-! ## Ingest orchestration (main.ingest_fingerprint) -/

/-- The decay fields `ingest_fingerprint` chooses for the BRG row: the
correlation's fields when one was detected, otherwise the fresh defaults
`(base=0.5, decay=1.0, effective=0.5, status=ACTIVE)`. -/
def chooseDecayFields : Option CorrelationResult → DecayFields
  | some c => ⟨c.base_confidence, c.decay_score, c.effective_confidence, c.pattern_status⟩
  | none => ⟨1/2, 1, 1/2, .ACTIVE⟩

/-- The graph-updating part of `ingest_fingerprint`: detect the correlation
on the pre-observation state, choose the decay fields, add the observation. -/
def ingest_graph_update (g : Graph) (fingerprint entity_id severity : String)
    (timestamp : ℚ) (entity_threshold : ℕ) (time_window_seconds now : ℚ) : Graph :=
  let correlation := detect_correlation g fingerprint entity_threshold time_window_seconds now
  add_pattern_observation g fingerprint entity_id severity timestamp
    (chooseDecayFields correlation)

/-- Node lookup by id (`graph.nodes[fingerprint]` / `has_node`). -/
def findNode (g : Graph) (id : String) : Option BRGNode :=
  g.nodes.find? (fun nd => nd.id = id)

/-- Well-formedness of a BRG state, as `add_pattern_observation` maintains
it: every observation edge points at a pattern node of the graph, and a
node whose id is the source of some edge is an entity node. -/
def WF (g : Graph) : Prop :=
  (∀ e ∈ g.edges, ∃ nd ∈ g.nodes, nd.id = e.fingerprint ∧
      nd.node_type = NodeType.pattern) ∧
  (∀ e ∈ g.edges, ∀ nd ∈ g.nodes, nd.id = e.entity_id →
      nd.node_type = NodeType.entity)

/-- A concrete one-edge graph used to exercise pruning: one pattern node
`f1` observed once by entity `a` at time 0, retention 300 s. -/
def pruneExampleGraph : Graph :=
  { nodes := [{ id := "f1", node_type := .pattern, first_seen := 0,
                last_seen := 0, observation_count := 1,
                base_confidence := 1/2, decay_score := 1,
                effective_confidence := 1/2, last_seen_timestamp := 0,
                pattern_status := .ACTIVE }, mkEntityNode "a"],
    edges := [⟨"a", "f1", 0, "HIGH"⟩], max_age := 300,
    observation_count := 1 }

/-- The empty graph with the default 300 s retention. -/
def emptyGraph : Graph :=
  { nodes := [], edges := [], max_age := 300, observation_count := 0 }

/-- A concrete graph with one observation of pattern `f` by entity `a` at
time 0, used to exercise the correlator. -/
def detectExampleGraph : Graph :=
  { nodes := [{ id := "f", node_type := .pattern, first_seen := 0,
                last_seen := 0, observation_count := 1,
                base_confidence := 1/2, decay_score := 1,
                effective_confidence := 1/2, last_seen_timestamp := 0,
                pattern_status := .ACTIVE }, mkEntityNode "a"],
    edges := [⟨"a", "f", 0, "HIGH"⟩], max_age := 300,
    observation_count := 1 }

/-! ## Helper lemmas -/

/-- Closed form of `calculate_decay_score` under the default window table. -/
lemma calculate_decay_score_eq (l n : ℚ) :
    calculate_decay_score l n =
      if n - l ≤ 120 then 1
      else if n - l ≤ 300 then 4/5
      else if n - l ≤ 600 then 1/2
      else 1/5 := by
  simp [calculate_decay_score, defaultDecayWindows, lookupDecayScore]

/-- Banker's rounding fixes the integers. -/
lemma pyRoundInt_intCast (m : ℤ) : pyRoundInt (m : ℚ) = m := by
  unfold pyRoundInt
  rw [Int.floor_intCast]
  norm_num

/-- Rounding a nonpositive value stays nonpositive. -/
lemma pyRoundInt_nonpos {x : ℚ} (hx : x ≤ 0) : pyRoundInt x ≤ 0 := by
  simp only [pyRoundInt]
  have hfl : (⌊x⌋ : ℚ) ≤ x := Int.floor_le x
  split_ifs with h1 h2 h3
  · exact_mod_cast Int.floor_nonpos hx
  · have : (⌊x⌋ : ℚ) ≤ -(1/2) := by linarith
    have : (⌊x⌋ : ℚ) < 0 := by linarith
    have : ⌊x⌋ < 0 := by exact_mod_cast this
    omega
  · exact_mod_cast Int.floor_nonpos hx
  · have : (⌊x⌋ : ℚ) ≤ -(1/2) := by linarith
    have : (⌊x⌋ : ℚ) < 0 := by linarith
    have : ⌊x⌋ < 0 := by exact_mod_cast this
    omega

/-- Rounding via `round(x, 4)` fixes every four-decimal value. -/
lemma round4_div10000 (m : ℤ) : round4 ((m : ℚ) / 10000) = (m : ℚ) / 10000 := by
  unfold round4
  rw [div_mul_cancel₀ _ (by norm_num : (10000 : ℚ) ≠ 0), pyRoundInt_intCast]

/-- Rounding via `round(x, 2)` keeps a nonpositive value nonpositive. -/
lemma round2_nonpos {x : ℚ} (hx : x ≤ 0) : round2 x ≤ 0 := by
  unfold round2
  have h := pyRoundInt_nonpos (x := x * 100) (by nlinarith)
  have : ((pyRoundInt (x * 100) : ℚ)) ≤ 0 := by exact_mod_cast h
  linarith [this]

/-- The function `find?` commutes with mapping a function that does not change whether
the predicate holds. -/
lemma find?_map_congr {α : Type} {u : α → α} {q : α → Bool}
    (h : ∀ x, q (u x) = q x) (l : List α) :
    (l.map u).find? q = (l.find? q).map u := by
  rw [List.find?_map]
  have : (q ∘ u) = q := funext h
  rw [this]

/-- The update `bumpObservationNode` preserves node ids. -/
lemma bump_id (fp : String) (ts : ℚ) (nd : BRGNode) :
    (bumpObservationNode fp ts nd).id = nd.id := by
  unfold bumpObservationNode
  split <;> rfl

/-- The update `updateDecayFieldsNode` preserves node ids. -/
lemma updateDecay_id (fp : String) (ts : ℚ) (f : DecayFields) (nd : BRGNode) :
    (updateDecayFieldsNode fp ts f nd).id = nd.id := by
  unfold updateDecayFieldsNode
  split <;> rfl

/-- The pattern node `add_pattern_observation` leaves under key
`fingerprint`: the updated existing node, or the freshly created one, in
both cases with the observation bump applied. -/
lemma findNode_add (g : Graph) (fp eid sev : String) (ts : ℚ) (f : DecayFields) :
    findNode (add_pattern_observation g fp eid sev ts f) fp =
      some (match findNode g fp with
            | some nd => bumpObservationNode fp ts (updateDecayFieldsNode fp ts f nd)
            | none => bumpObservationNode fp ts (createdPatternNode fp ts f)) := by
  have hqb : ∀ nd : BRGNode,
      (decide ((bumpObservationNode fp ts nd).id = fp)) = decide (nd.id = fp) := by
    intro nd; rw [bump_id]
  have hqu : ∀ nd : BRGNode,
      (decide ((updateDecayFieldsNode fp ts f nd).id = fp)) = decide (nd.id = fp) := by
    intro nd; rw [updateDecay_id]
  unfold findNode add_pattern_observation
  cases hfind : g.nodes.find? (fun nd => nd.id = fp) with
  | some nd =>
    have hp : (decide (nd.id = fp)) = true :=
      List.find?_some (p := fun nd : BRGNode => decide (nd.id = fp)) hfind
    have hany : g.nodes.any (fun nd => nd.id = fp) = true :=
      List.any_eq_true.mpr ⟨nd, List.mem_of_find?_eq_some hfind, hp⟩
    have h1 : ((g.nodes.map (updateDecayFieldsNode fp ts f)).map
        (bumpObservationNode fp ts)).find? (fun nd => nd.id = fp) =
        some (bumpObservationNode fp ts (updateDecayFieldsNode fp ts f nd)) := by
      rw [find?_map_congr hqb, find?_map_congr hqu, hfind]
      rfl
    simp only [hany, if_true]
    split
    · rw [h1]
    · rw [List.find?_append, h1]
      rfl
  | none =>
    have hnone : ∀ x ∈ g.nodes, ¬ (decide (x.id = fp)) = true :=
      List.find?_eq_none.mp hfind
    have hany : g.nodes.any (fun nd => nd.id = fp) = false := by
      rw [List.any_eq_false]
      intro x hx
      exact hnone x hx
    have hcreated : (decide ((bumpObservationNode fp ts
        (createdPatternNode fp ts f)).id = fp)) = true := by
      rw [bump_id]
      simp [createdPatternNode]
    have h1 : (((g.nodes ++ [createdPatternNode fp ts f]).map
        (bumpObservationNode fp ts)).find? (fun nd => nd.id = fp)) =
        some (bumpObservationNode fp ts (createdPatternNode fp ts f)) := by
      rw [List.map_append, List.find?_append, find?_map_congr hqb, hfind]
      simp only [Option.map_none, Option.none_or, List.map_cons, List.map_nil]
      exact List.find?_cons_of_pos
        (p := fun nd : BRGNode => decide (nd.id = fp)) _ hcreated
    simp only [hany, if_false, Bool.false_eq_true]
    split
    · rw [h1]
    · rw [List.find?_append, h1]
      rfl

/-! ## C4: decay windows -/

/-- Claim C4: for every `last_seen` and `now` with `age = now - last_seen ≥ 0`,
`calculate_decay_score` under the default window table returns `1.0` for
`age ≤ 120` (the boundary `age = 120` is still fresh), `0.8` for
`120 < age ≤ 300`, `0.5` for `300 < age ≤ 600`, and `0.2` for `age > 600`;
and the result is deterministic — it depends only on the age, so identical
inputs (or any inputs of the same age) give the identical result. -/
theorem decay_score_windows (last_seen now : ℚ) (h : 0 ≤ now - last_seen) :
    (now - last_seen ≤ 120 → calculate_decay_score last_seen now = 1) ∧
    (120 < now - last_seen → now - last_seen ≤ 300 →
      calculate_decay_score last_seen now = 4/5) ∧
    (300 < now - last_seen → now - last_seen ≤ 600 →
      calculate_decay_score last_seen now = 1/2) ∧
    (600 < now - last_seen → calculate_decay_score last_seen now = 1/5) ∧
    (∀ l' n', n' - l' = now - last_seen →
      calculate_decay_score l' n' = calculate_decay_score last_seen now) := by
  refine ⟨fun h1 => ?_, fun h1 h2 => ?_, fun h1 h2 => ?_, fun h1 => ?_,
    fun l' n' he => ?_⟩
  · rw [calculate_decay_score_eq, if_pos h1]
  · rw [calculate_decay_score_eq, if_neg (by linarith), if_pos h2]
  · rw [calculate_decay_score_eq, if_neg (by linarith), if_neg (by linarith),
      if_pos h2]
  · rw [calculate_decay_score_eq, if_neg (by linarith), if_neg (by linarith),
      if_neg (by linarith)]
  · rw [calculate_decay_score_eq, calculate_decay_score_eq, he]

/-- Witness for `decay_score_windows` at `last_seen = 0, now = 120`. -/
theorem decay_score_windows_witness :
    (0 : ℚ) ≤ 120 - 0 ∧ calculate_decay_score 0 120 = 1 :=
  ⟨by norm_num, (decay_score_windows 0 120 (by norm_num)).1 (by norm_num)⟩

/-! ## C1: fraud-score formula -/

/-- Claim C1, counterexample: at `entity_count = 2`, `span = 0`,
`effective_confidence = 0.06` the code computes
`40 + int(1.8) = 41`, while the claimed formula with `round` gives
`40 + round(1.8) = 42`; so the fraud score does not equal the claimed
`clamp(min(n*20,60) + round(e*30) - penalty, 0, 100)`. -/
theorem fraud_score_round_counterexample :
    calculate_fraud_score
      { fingerprint := "f", entity_count := 2, time_span_seconds := 0,
        confidence := "MEDIUM", base_confidence := 3/4, decay_score := 1,
        effective_confidence := 3/50, last_seen_timestamp := 0,
        pattern_status := .ACTIVE } = 41 ∧
    spec_fraud_score 2 0 (3/50) = 42 ∧
    calculate_fraud_score
      { fingerprint := "f", entity_count := 2, time_span_seconds := 0,
        confidence := "MEDIUM", base_confidence := 3/4, decay_score := 1,
        effective_confidence := 3/50, last_seen_timestamp := 0,
        pattern_status := .ACTIVE } ≠ spec_fraud_score 2 0 (3/50) := by
  have h1 : calculate_fraud_score
      { fingerprint := "f", entity_count := 2, time_span_seconds := 0,
        confidence := "MEDIUM", base_confidence := 3/4, decay_score := 1,
        effective_confidence := 3/50, last_seen_timestamp := 0,
        pattern_status := .ACTIVE } = 41 := by
    simp only [calculate_fraud_score, pyInt]
    norm_num
  have h2 : spec_fraud_score 2 0 (3/50) = 42 := by
    simp only [spec_fraud_score]
    norm_num [round_eq]
  refine ⟨h1, h2, by rw [h1, h2]; norm_num⟩

/-- Claim C1, amended: the fraud score equals
`clamp( min(n*20, 60) + int(e*30) - (10 if span > 600 s else 0), 0, 100 )`
where `int` truncates toward zero (the floor, for the nonnegative effective
confidences) rather than rounding to nearest; and it always lies in
`[0, 100]`. -/
theorem fraud_score_floor_formula (c : CorrelationResult)
    (h : 0 ≤ c.effective_confidence) :
    calculate_fraud_score c =
      max 0 (min 100 (min ((c.entity_count : ℤ) * 20) 60 +
        ⌊c.effective_confidence * 30⌋ -
        (if 600 < c.time_span_seconds then 10 else 0))) ∧
    0 ≤ calculate_fraud_score c ∧ calculate_fraud_score c ≤ 100 := by
  refine ⟨?_, ?_, ?_⟩
  · simp only [calculate_fraud_score, pyInt]
    rw [if_pos (by positivity : (0 : ℚ) ≤ c.effective_confidence * 30)]
    split_ifs <;> simp
  · exact le_max_left 0 _
  · simp only [calculate_fraud_score]
    exact max_le (by norm_num) (min_le_left _ _)

/-- Witness for `fraud_score_floor_formula` at a concrete correlation. -/
theorem fraud_score_floor_formula_witness :
    (0 : ℚ) ≤ 3/50 ∧
    calculate_fraud_score
      { fingerprint := "f", entity_count := 2, time_span_seconds := 0,
        confidence := "MEDIUM", base_confidence := 3/4, decay_score := 1,
        effective_confidence := 3/50, last_seen_timestamp := 0,
        pattern_status := .ACTIVE } =
      max 0 (min 100 (min ((2 : ℤ) * 20) 60 + ⌊(3/50 : ℚ) * 30⌋ -
        (if (600 : ℚ) < 0 then 10 else 0))) :=
  ⟨by norm_num,
    (fraud_score_floor_formula
      { fingerprint := "f", entity_count := 2, time_span_seconds := 0,
        confidence := "MEDIUM", base_confidence := 3/4, decay_score := 1,
        effective_confidence := 3/50, last_seen_timestamp := 0,
        pattern_status := .ACTIVE } (by norm_num)).1⟩

/-! ## C9: monotonicity in entity count -/

/-- Claim C9: with time span and effective confidence held fixed, the fraud
score is monotone non-decreasing in the entity count. -/
theorem fraud_score_monotone_entity_count (c : CorrelationResult)
    (n₁ n₂ : ℕ) (h : n₁ ≤ n₂) :
    calculate_fraud_score { c with entity_count := n₁ } ≤
      calculate_fraud_score { c with entity_count := n₂ } := by
  have h20 : (n₁ : ℤ) * 20 ≤ (n₂ : ℤ) * 20 := by
    have : (n₁ : ℤ) ≤ (n₂ : ℤ) := by exact_mod_cast h
    linarith
  simp only [calculate_fraud_score]
  split_ifs <;> gcongr

/-- Witness for `fraud_score_monotone_entity_count` at entity counts 2 and 3. -/
theorem fraud_score_monotone_entity_count_witness :
    (2 : ℕ) ≤ 3 ∧
    calculate_fraud_score
      { fingerprint := "g", entity_count := 2, time_span_seconds := 90,
        confidence := "MEDIUM", base_confidence := 3/4, decay_score := 1,
        effective_confidence := 3/4, last_seen_timestamp := 0,
        pattern_status := .ACTIVE } ≤
    calculate_fraud_score
      { fingerprint := "g", entity_count := 3, time_span_seconds := 90,
        confidence := "MEDIUM", base_confidence := 3/4, decay_score := 1,
        effective_confidence := 3/4, last_seen_timestamp := 0,
        pattern_status := .ACTIVE } :=
  ⟨by norm_num,
    fraud_score_monotone_entity_count
      { fingerprint := "g", entity_count := 2, time_span_seconds := 90,
        confidence := "MEDIUM", base_confidence := 3/4, decay_score := 1,
        effective_confidence := 3/4, last_seen_timestamp := 0,
        pattern_status := .ACTIVE } 2 3 (by norm_num)⟩

/-! ## C8: reactivation followed by immediate decay -/

/-- Claim C8, counterexample: at `b = 0.123456 ∈ [0,1]` and `t = 0`,
`reactivate` followed by `apply_decay(p, b, t, t)` yields
`effective_confidence = round(b, 4) = 0.1235 ≠ b`; so the claimed
`effective = b` fails for a base confidence with more than four decimals. -/
theorem reactivate_effective_round_counterexample :
    (0 : ℚ) ≤ 123456/1000000 ∧ (123456/1000000 : ℚ) ≤ 1 ∧
    (apply_decay "p" (123456/1000000)
      (reactivate_pattern "p" (123456/1000000) 0).last_seen_timestamp
      0).effective_confidence = 247/2000 ∧
    (247/2000 : ℚ) ≠ 123456/1000000 := by
  refine ⟨by norm_num, by norm_num, ?_, by norm_num⟩
  have hd : calculate_decay_score (0 : ℚ) 0 = 1 := by
    rw [calculate_decay_score_eq]; norm_num
  have hls : (reactivate_pattern "p" (123456/1000000) 0).last_seen_timestamp
      = (0 : ℚ) := rfl
  rw [hls]
  simp only [apply_decay, hd, calculate_effective_confidence, round4, pyRoundInt]
  norm_num

/-- Claim C8, amended: `reactivate(p, b, t)` immediately followed by
`apply_decay(p, b, t, t)` yields `decay_score = 1`,
`effective_confidence = round(b, 4)` — equal to `b` whenever `b` has at
most four decimal places — and the status derived from `round(b, 4)`;
reactivation itself returns `decay = 1`, age `0`, and `last_seen = t`. -/
theorem reactivate_then_decay (p : String) (b t : ℚ)
    (h0 : 0 ≤ b) (h1 : b ≤ 1) :
    (reactivate_pattern p b t).decay_score = 1 ∧
    (reactivate_pattern p b t).time_since_last_seen_seconds = 0 ∧
    (reactivate_pattern p b t).last_seen_timestamp = t ∧
    (apply_decay p b (reactivate_pattern p b t).last_seen_timestamp t).decay_score
      = 1 ∧
    (apply_decay p b (reactivate_pattern p b t).last_seen_timestamp
      t).effective_confidence = round4 b ∧
    (apply_decay p b (reactivate_pattern p b t).last_seen_timestamp t).status =
      determine_pattern_status defaultThresholds (round4 b) ∧
    (∀ m : ℤ, b = (m : ℚ) / 10000 →
      (apply_decay p b (reactivate_pattern p b t).last_seen_timestamp
        t).effective_confidence = b) := by
  have hls : (reactivate_pattern p b t).last_seen_timestamp = t := rfl
  have hd : calculate_decay_score t t = 1 := by
    rw [calculate_decay_score_eq]; norm_num
  have heff : calculate_effective_confidence b 1 = round4 b := by
    unfold calculate_effective_confidence
    rw [mul_one, max_eq_right h0, min_eq_right h1]
  refine ⟨rfl, rfl, rfl, ?_, ?_, ?_, ?_⟩
  · rw [hls]; simp only [apply_decay]; rw [hd]
  · rw [hls]; simp only [apply_decay]; rw [hd, heff]
  · rw [hls]; simp only [apply_decay]; rw [hd, heff]
  · intro m hm
    have hfix : round4 b = b := by rw [hm]; exact round4_div10000 m
    rw [hls]; simp only [apply_decay]; rw [hd, heff, hfix]

/-- Witness for `reactivate_then_decay` at `b = 0.7, t = 5`. -/
theorem reactivate_then_decay_witness :
    (0 : ℚ) ≤ 7/10 ∧ (7/10 : ℚ) ≤ 1 ∧
    (apply_decay "p" (7/10) (reactivate_pattern "p" (7/10) 5).last_seen_timestamp
      5).effective_confidence = round4 (7/10) :=
  ⟨by norm_num, by norm_num,
    (reactivate_then_decay "p" (7/10) 5 (by norm_num) (by norm_num)).2.2.2.2.1⟩

/-! ## C10: future-dated observations -/

/-- Claim C10: for a `last_seen` at or after `now` (a future-dated
observation, age ≤ 0), `calculate_decay_score` is total and returns the
fresh score `1.0`, and `apply_decay` returns a result whose
`time_since_last_seen_seconds` is `≤ 0` and whose effective confidence
equals the base confidence it reports (`round(b, 4)`, the undampened base):
a future timestamp keeps the pattern at full strength without error. -/
theorem future_timestamp_full_strength (p : String) (b last_seen now : ℚ)
    (hfut : now ≤ last_seen) (hb0 : 0 ≤ b) (hb1 : b ≤ 1) :
    calculate_decay_score last_seen now = 1 ∧
    (apply_decay p b last_seen now).time_since_last_seen_seconds ≤ 0 ∧
    (apply_decay p b last_seen now).effective_confidence =
      (apply_decay p b last_seen now).base_confidence ∧
    (apply_decay p b last_seen now).effective_confidence = round4 b := by
  have hd : calculate_decay_score last_seen now = 1 := by
    rw [calculate_decay_score_eq, if_pos (by linarith)]
  have heff : calculate_effective_confidence b 1 = round4 b := by
    unfold calculate_effective_confidence
    rw [mul_one, max_eq_right hb0, min_eq_right hb1]
  refine ⟨hd, ?_, ?_, ?_⟩
  · simp only [apply_decay]
    exact round2_nonpos (by linarith)
  · simp only [apply_decay]; rw [hd, heff]
  · simp only [apply_decay]; rw [hd, heff]

/-- Witness for `future_timestamp_full_strength` at
`b = 0.5, last_seen = 10, now = 5`. -/
theorem future_timestamp_full_strength_witness :
    (5 : ℚ) ≤ 10 ∧ (0 : ℚ) ≤ 1/2 ∧ (1/2 : ℚ) ≤ 1 ∧
    calculate_decay_score 10 5 = 1 :=
  ⟨by norm_num, by norm_num, by norm_num,
    (future_timestamp_full_strength "p" (1/2) 10 5 (by norm_num) (by norm_num)
      (by norm_num)).1⟩

/-! ## C7: runtime configuration updates -/

/-- Claim C7, counterexample: the runtime update
`{medium_threshold: 5}` on the (valid) default configuration violates
`medium ≤ high` (5 > 3), yet the `/admin/config/update` endpoint applies
it — the resulting configuration has `medium_threshold = 5` and differs
from the previous one, so the update is neither rejected nor the old
configuration retained. -/
theorem update_config_no_validation_counterexample :
    validate_config defaultConfig = .ok () ∧
    update_config_endpoint defaultConfig
      { entity_threshold := none, time_window_seconds := none,
        critical_threshold := none, high_threshold := none,
        medium_threshold := some 5 } =
      { defaultConfig with medium_threshold := 5 } ∧
    ({ defaultConfig with medium_threshold := 5 } : HubConfig) ≠ defaultConfig ∧
    ¬ ({ defaultConfig with medium_threshold := 5 } : HubConfig).medium_threshold ≤
      ({ defaultConfig with medium_threshold := 5 } : HubConfig).high_threshold := by
  refine ⟨rfl, rfl, by decide, by decide⟩

/-- Claim C7, amended: a configuration violating the ordering constraint
`1 ≤ medium ≤ high ≤ critical` never passes `validate_config` (which the
hub runs only at startup), but the runtime `/admin/config/update` endpoint
applies every field of an update unconditionally, with no validation. -/
theorem config_validation_startup_only (c : HubConfig) (u : ConfigUpdate)
    (hviol : ¬ (1 ≤ c.medium_threshold ∧ c.medium_threshold ≤ c.high_threshold ∧
      c.high_threshold ≤ c.critical_threshold)) :
    validate_config c ≠ .ok () ∧
    (update_config_endpoint c u).entity_threshold =
      u.entity_threshold.getD c.entity_threshold ∧
    (update_config_endpoint c u).time_window_seconds =
      u.time_window_seconds.getD c.time_window_seconds ∧
    (update_config_endpoint c u).critical_threshold =
      u.critical_threshold.getD c.critical_threshold ∧
    (update_config_endpoint c u).high_threshold =
      u.high_threshold.getD c.high_threshold ∧
    (update_config_endpoint c u).medium_threshold =
      u.medium_threshold.getD c.medium_threshold := by
  refine ⟨?_, rfl, rfl, rfl, rfl, rfl⟩
  unfold validate_config
  split_ifs <;> simp

/-- Witness for `config_validation_startup_only` at the configuration the
counterexample produced. -/
theorem config_validation_startup_only_witness :
    ¬ (1 ≤ ({ defaultConfig with medium_threshold := 5 } : HubConfig).medium_threshold ∧
      ({ defaultConfig with medium_threshold := 5 } : HubConfig).medium_threshold ≤
        ({ defaultConfig with medium_threshold := 5 } : HubConfig).high_threshold ∧
      ({ defaultConfig with medium_threshold := 5 } : HubConfig).high_threshold ≤
        ({ defaultConfig with medium_threshold := 5 } : HubConfig).critical_threshold) ∧
    validate_config { defaultConfig with medium_threshold := 5 } ≠ .ok () :=
  ⟨by decide,
    (config_validation_startup_only { defaultConfig with medium_threshold := 5 }
      { entity_threshold := none, time_window_seconds := none,
        critical_threshold := none, high_threshold := none,
        medium_threshold := none } (by decide)).1⟩

/-! ## C6: first_seen / last_seen invariant -/

/-- Claim C6, counterexample: two `add_observation` calls for the same
pattern with out-of-order timestamps (10 then 5) leave the pattern node
with `first_seen = 10 > last_seen = 5`: `last_seen` is assigned the new
timestamp unconditionally, so it is not monotone and `first_seen ≤
last_seen` does not hold for arbitrary entity-supplied timestamps. -/
theorem last_seen_out_of_order_counterexample :
    ∃ nd, findNode (add_pattern_observation
        (add_pattern_observation ⟨[], [], 300, 0⟩ "f" "a" "HIGH" 10
          ⟨1/2, 1, 1/2, .ACTIVE⟩)
        "f" "b" "HIGH" 5 ⟨1/2, 1, 1/2, .ACTIVE⟩) "f" = some nd ∧
      nd.first_seen = 10 ∧ nd.last_seen = 5 ∧ ¬ nd.first_seen ≤ nd.last_seen := by
  have h0 : findNode (⟨[], [], 300, 0⟩ : Graph) "f" = none := rfl
  have h1 : findNode (add_pattern_observation ⟨[], [], 300, 0⟩ "f" "a" "HIGH" 10
      ⟨1/2, 1, 1/2, .ACTIVE⟩) "f" =
      some (bumpObservationNode "f" 10 (createdPatternNode "f" 10
        ⟨1/2, 1, 1/2, .ACTIVE⟩)) := by
    rw [findNode_add, h0]
  refine ⟨_, by rw [findNode_add, h1], ?_, ?_, ?_⟩ <;>
    simp [bumpObservationNode, updateDecayFieldsNode, createdPatternNode] <;>
    norm_num

/-- Claim C6, amended: `last_seen` always equals the timestamp of the most
recent `add_observation`; on first sight `first_seen = last_seen = ts`,
and provided each new timestamp is at least the node's current
`last_seen` (observations arrive in timestamp order), `first_seen ≤
last_seen` is preserved and `last_seen` is non-decreasing. -/
theorem last_seen_monotone_in_order (g : Graph) (fp eid sev : String)
    (ts : ℚ) (f : DecayFields) :
    (findNode g fp = none →
      ∃ nd', findNode (add_pattern_observation g fp eid sev ts f) fp = some nd' ∧
        nd'.first_seen = ts ∧ nd'.last_seen = ts ∧
        nd'.first_seen ≤ nd'.last_seen) ∧
    (∀ nd, findNode g fp = some nd → nd.first_seen ≤ nd.last_seen →
      nd.last_seen ≤ ts →
      ∃ nd', findNode (add_pattern_observation g fp eid sev ts f) fp = some nd' ∧
        nd'.first_seen = nd.first_seen ∧ nd'.last_seen = ts ∧
        nd'.first_seen ≤ nd'.last_seen ∧ nd.last_seen ≤ nd'.last_seen) := by
  constructor
  · intro hnone
    refine ⟨_, by rw [findNode_add, hnone], ?_, ?_, ?_⟩ <;>
      simp [bumpObservationNode, createdPatternNode]
  · intro nd hsome hfl hts
    have hid : nd.id = fp := by
      have := List.find?_some (p := fun nd : BRGNode => decide (nd.id = fp)) hsome
      simpa using this
    refine ⟨_, by rw [findNode_add, hsome], ?_, ?_, ?_, ?_⟩ <;>
      simp [bumpObservationNode, updateDecayFieldsNode, hid] <;>
      linarith

/-- Witness for `last_seen_monotone_in_order`: in-order observations at
timestamps 10 then 20 keep `first_seen ≤ last_seen`. -/
theorem last_seen_monotone_in_order_witness :
    ∃ nd', findNode (add_pattern_observation
        (add_pattern_observation ⟨[], [], 300, 0⟩ "f" "a" "HIGH" 10
          ⟨1/2, 1, 1/2, .ACTIVE⟩)
        "f" "b" "HIGH" 20 ⟨1/2, 1, 1/2, .ACTIVE⟩) "f" = some nd' ∧
      nd'.first_seen = 10 ∧ nd'.last_seen = 20 ∧
      nd'.first_seen ≤ nd'.last_seen ∧ (10 : ℚ) ≤ nd'.last_seen := by
  have h0 : findNode (⟨[], [], 300, 0⟩ : Graph) "f" = none := rfl
  have h1 : findNode (add_pattern_observation ⟨[], [], 300, 0⟩ "f" "a" "HIGH" 10
      ⟨1/2, 1, 1/2, .ACTIVE⟩) "f" =
      some (bumpObservationNode "f" 10 (createdPatternNode "f" 10
        ⟨1/2, 1, 1/2, .ACTIVE⟩)) := by
    rw [findNode_add, h0]
  have hfs : (bumpObservationNode "f" 10 (createdPatternNode "f" 10
      (⟨1/2, 1, 1/2, .ACTIVE⟩ : DecayFields))).first_seen = 10 := by
    simp [bumpObservationNode, createdPatternNode]
  have hls : (bumpObservationNode "f" 10 (createdPatternNode "f" 10
      (⟨1/2, 1, 1/2, .ACTIVE⟩ : DecayFields))).last_seen = 10 := by
    simp [bumpObservationNode, createdPatternNode]
  obtain ⟨nd', hnd', hf, hl, hle, hmono⟩ :=
    (last_seen_monotone_in_order
      (add_pattern_observation ⟨[], [], 300, 0⟩ "f" "a" "HIGH" 10
        ⟨1/2, 1, 1/2, .ACTIVE⟩) "f" "b" "HIGH" 20 ⟨1/2, 1, 1/2, .ACTIVE⟩).2
      _ h1 (by rw [hfs, hls]) (by rw [hls]; norm_num)
  exact ⟨nd', hnd', by rw [hf, hfs], hl, hle, by rw [← hls]; exact hmono⟩

/-! ## C5: pruning -/

/-- Claim C5: `prune` removes exactly the edges with
`timestamp < now − max_age` and returns their number; it never removes an
entity node; every removed node is a pattern node whose degree became
zero; and afterwards a pattern node exists iff at least one observation
edge still references it (under the well-formedness `add_observation`
maintains). -/
theorem prune_correct (g : Graph) (now : ℚ) (hWF : WF g) :
    (prune_expired_edges g now).2.edges =
      g.edges.filter (fun e => ¬ e.timestamp < now - g.max_age) ∧
    (prune_expired_edges g now).1 =
      (g.edges.filter (fun e => e.timestamp < now - g.max_age)).length ∧
    (∀ nd ∈ g.nodes, nd.node_type = NodeType.entity →
      nd ∈ (prune_expired_edges g now).2.nodes) ∧
    (∀ nd ∈ g.nodes, nd ∉ (prune_expired_edges g now).2.nodes →
      nd.node_type = NodeType.pattern ∧
      degreeIn (prune_expired_edges g now).2.edges nd.id = 0) ∧
    (∀ p : String,
      (∃ nd ∈ (prune_expired_edges g now).2.nodes,
        nd.id = p ∧ nd.node_type = NodeType.pattern) ↔
      (∃ e ∈ (prune_expired_edges g now).2.edges, e.fingerprint = p)) := by
  refine ⟨rfl, rfl, ?_, ?_, ?_⟩
  · intro nd hmem htype
    refine List.mem_filter.mpr ⟨hmem, decide_eq_true ?_⟩
    intro hcon
    rw [htype] at hcon
    cases hcon.2
  · intro nd hmem hnot
    have hp : ¬ ¬ (degreeIn (g.edges.filter
        (fun e => ¬ e.timestamp < now - g.max_age)) nd.id = 0 ∧
        nd.node_type = NodeType.pattern) := by
      intro hcon
      exact hnot (List.mem_filter.mpr ⟨hmem, decide_eq_true hcon⟩)
    have h := not_not.mp hp
    exact ⟨h.2, h.1⟩
  · intro p
    constructor
    · rintro ⟨nd, hnd, hid, htype⟩
      obtain ⟨hmem, hpredb⟩ := List.mem_filter.mp hnd
      have hpred : ¬ (degreeIn (g.edges.filter
          (fun e => ¬ e.timestamp < now - g.max_age)) nd.id = 0 ∧
          nd.node_type = NodeType.pattern) := of_decide_eq_true hpredb
      have hdeg : degreeIn (g.edges.filter
          (fun e => ¬ e.timestamp < now - g.max_age)) nd.id ≠ 0 :=
        fun h0 => hpred ⟨h0, htype⟩
      have hne : ((g.edges.filter (fun e => ¬ e.timestamp < now - g.max_age)).filter
          (fun e => e.entity_id = nd.id ∨ e.fingerprint = nd.id)) ≠ [] := by
        intro hem
        apply hdeg
        unfold degreeIn
        rw [hem]
        rfl
      obtain ⟨e, hemem⟩ := List.exists_mem_of_ne_nil _ hne
      obtain ⟨hek, horb⟩ := List.mem_filter.mp hemem
      have hor : e.entity_id = nd.id ∨ e.fingerprint = nd.id :=
        of_decide_eq_true horb
      cases hor with
      | inl hsrc =>
        have hge : e ∈ g.edges := List.mem_of_mem_filter hek
        have hent := hWF.2 e hge nd hmem hsrc.symm
        rw [hent] at htype
        cases htype
      | inr htgt =>
        exact ⟨e, hek, by rw [htgt, hid]⟩
    · rintro ⟨e, hek, hfp⟩
      have hge : e ∈ g.edges := List.mem_of_mem_filter hek
      obtain ⟨nd, hmem, hid, htype⟩ := hWF.1 e hge
      refine ⟨nd, ?_, by rw [hid, hfp], htype⟩
      refine List.mem_filter.mpr ⟨hmem, decide_eq_true ?_⟩
      have hinc : e ∈ (g.edges.filter
          (fun e => ¬ e.timestamp < now - g.max_age)).filter
          (fun e' => e'.entity_id = nd.id ∨ e'.fingerprint = nd.id) :=
        List.mem_filter.mpr ⟨hek, decide_eq_true (Or.inr hid.symm)⟩
      have hlen : degreeIn (g.edges.filter
          (fun e => ¬ e.timestamp < now - g.max_age)) nd.id ≠ 0 := by
        unfold degreeIn
        intro h0
        rw [List.length_eq_zero] at h0
        rw [h0] at hinc
        cases hinc
      exact fun hcon => hlen hcon.1

/-- Witness for `prune_correct`: a well-formed one-edge graph pruned past
its horizon loses its only (expired) edge. -/
theorem prune_correct_witness :
    WF pruneExampleGraph ∧
    (prune_expired_edges pruneExampleGraph 400).2.edges =
      pruneExampleGraph.edges.filter (fun e => ¬ e.timestamp < 400 -
        pruneExampleGraph.max_age) := by
  have hWFw : WF pruneExampleGraph := by
    constructor
    · intro e he
      simp only [pruneExampleGraph, List.mem_singleton] at he
      refine ⟨{ id := "f1", node_type := .pattern, first_seen := 0,
                last_seen := 0, observation_count := 1,
                base_confidence := 1/2, decay_score := 1,
                effective_confidence := 1/2, last_seen_timestamp := 0,
                pattern_status := .ACTIVE }, by simp [pruneExampleGraph], ?_, rfl⟩
      rw [he]
    · intro e he nd hnd hide
      simp only [pruneExampleGraph, List.mem_singleton] at he
      rw [he] at hide
      simp only [pruneExampleGraph, List.mem_cons, List.mem_singleton] at hnd
      cases hnd with
      | inl h => rw [h] at hide; simp at hide
      | inr h =>
        cases h with
        | inl h2 => rw [h2]; rfl
        | inr h2 => cases h2
  exact ⟨hWFw, (prune_correct pruneExampleGraph 400 hWFw).1⟩
/-! ## C3: correlation detection -/

/-- Claim C3: `detect_correlation` returns no correlation exactly when the
recent-observation list over the configured window is empty or the number
of distinct observing entities is below `entity_threshold`; otherwise the
result's entity count is that distinct count, its span is last minus first
observation timestamp (0 for a single observation), and the label/base
pair is HIGH/0.9 when `n ≥ 3 ∧ span < 180`, else MEDIUM/0.75 when
`n ≥ 2 ∧ span < 300`, else LOW/0.5. -/
theorem detect_correlation_characterization (g : Graph) (fp : String)
    (thr : ℕ) (w now : ℚ) :
    (detect_correlation g fp thr w now = none ↔
      (get_recent_observations g fp w now = [] ∨
       ((get_recent_observations g fp w now).map
         (fun o => o.entity_id)).dedup.length < thr)) ∧
    (∀ c, detect_correlation g fp thr w now = some c →
      c.entity_count = ((get_recent_observations g fp w now).map
        (fun o => o.entity_id)).dedup.length ∧
      (∀ h : get_recent_observations g fp w now ≠ [],
        c.time_span_seconds =
          (if 1 < (get_recent_observations g fp w now).length then
            ((get_recent_observations g fp w now).getLast h).timestamp -
            ((get_recent_observations g fp w now).head h).timestamp
          else 0) ∧
        c.last_seen_timestamp =
          ((get_recent_observations g fp w now).getLast h).timestamp) ∧
      (3 ≤ c.entity_count ∧ c.time_span_seconds < 180 →
        c.confidence = "HIGH" ∧ c.base_confidence = 9/10) ∧
      (¬ (3 ≤ c.entity_count ∧ c.time_span_seconds < 180) →
        2 ≤ c.entity_count ∧ c.time_span_seconds < 300 →
        c.confidence = "MEDIUM" ∧ c.base_confidence = 3/4) ∧
      (¬ (3 ≤ c.entity_count ∧ c.time_span_seconds < 180) →
        ¬ (2 ≤ c.entity_count ∧ c.time_span_seconds < 300) →
        c.confidence = "LOW" ∧ c.base_confidence = 1/2)) := by
  constructor
  · by_cases hobs : get_recent_observations g fp w now = []
    · simp only [detect_correlation]
      rw [dif_pos hobs]
      simp [hobs]
    · simp only [detect_correlation]
      rw [dif_neg hobs]
      by_cases hth : ((get_recent_observations g fp w now).map
          (fun o => o.entity_id)).dedup.length < thr
      · rw [if_pos hth]
        simp [hobs, hth]
      · rw [if_neg hth]
        simp [hobs, hth]
  · intro c hc
    simp only [detect_correlation] at hc
    by_cases hobs : get_recent_observations g fp w now = []
    · rw [dif_pos hobs] at hc
      cases hc
    · rw [dif_neg hobs] at hc
      by_cases hth : ((get_recent_observations g fp w now).map
          (fun o => o.entity_id)).dedup.length < thr
      · rw [if_pos hth] at hc
        cases hc
      · rw [if_neg hth] at hc
        have hcc := Option.some.inj hc
        subst hcc
        refine ⟨rfl, fun h => ⟨rfl, rfl⟩, ?_, ?_, ?_⟩
        · intro h1
          dsimp only at h1 ⊢
          unfold calculate_confidence confidence_map
          rw [if_pos h1]
          simp
        · intro h1 h2
          dsimp only at h1 h2 ⊢
          unfold calculate_confidence confidence_map
          rw [if_neg h1, if_pos h2]
          simp
        · intro h1 h2
          dsimp only at h1 h2 ⊢
          unfold calculate_confidence confidence_map
          rw [if_neg h1, if_neg h2]
          simp

/-- Witness for `detect_correlation_characterization`: on the empty graph
the recent-observation list is empty and no correlation is returned. -/
theorem detect_correlation_characterization_witness :
    get_recent_observations emptyGraph "f" 300 0 = [] ∧
    detect_correlation emptyGraph "f" 2 300 0 = none := by
  have hobs : get_recent_observations emptyGraph "f" 300 0 = [] := by
    simp [get_recent_observations, emptyGraph, List.mergeSort]
  exact ⟨hobs, (detect_correlation_characterization emptyGraph "f" 2 300 0).1.mpr
    (Or.inl hobs)⟩

/-! ## C2: stored status vs recomputed status -/

/-- Every correlation the correlator returns carries a status that is the
status function applied to its own effective confidence. -/
lemma detect_some_status (g : Graph) (fp : String) (thr : ℕ) (w now : ℚ)
    (c : CorrelationResult) (hc : detect_correlation g fp thr w now = some c) :
    c.pattern_status =
      determine_pattern_status defaultThresholds c.effective_confidence := by
  simp only [detect_correlation] at hc
  by_cases hobs : get_recent_observations g fp w now = []
  · rw [dif_pos hobs] at hc
    cases hc
  · rw [dif_neg hobs] at hc
    by_cases hth : ((get_recent_observations g fp w now).map
        (fun o => o.entity_id)).dedup.length < thr
    · rw [if_pos hth] at hc
      cases hc
    · rw [if_neg hth] at hc
      have hcc := Option.some.inj hc
      subst hcc
      rfl

/-- The node `add_pattern_observation` stores under the pattern key carries
exactly the decay fields it was handed. -/
lemma findNode_add_decay_fields (g : Graph) (fp eid sev : String) (ts : ℚ)
    (f : DecayFields) :
    ∃ nd, findNode (add_pattern_observation g fp eid sev ts f) fp = some nd ∧
      nd.pattern_status = f.pattern_status ∧
      nd.effective_confidence = f.effective_confidence := by
  rw [findNode_add]
  refine ⟨_, rfl, ?_, ?_⟩ <;>
  · cases hf : findNode g fp with
    | some nd =>
      have hid : nd.id = fp := by
        have := List.find?_some (p := fun nd : BRGNode => decide (nd.id = fp)) hf
        simpa using this
      simp [bumpObservationNode, updateDecayFieldsNode, hid]
    | none => simp [bumpObservationNode, createdPatternNode]

/-- Claim C2, amended: after `apply_decay`, and after the `add_observation`
of an ingest on which a correlation was detected, the stored
`pattern_status` equals the status recomputed from the stored
`effective_confidence`. (The uncorrelated default breaks this — see the
counterexample.) -/
theorem status_matches_effective_after_ingest (g : Graph)
    (fp eid sev : String) (ts : ℚ) (thr : ℕ) (w now : ℚ)
    (c : CorrelationResult)
    (hc : detect_correlation g fp thr w now = some c) :
    c.pattern_status =
      determine_pattern_status defaultThresholds c.effective_confidence ∧
    (∃ nd, findNode (ingest_graph_update g fp eid sev ts thr w now) fp = some nd ∧
      nd.pattern_status =
        determine_pattern_status defaultThresholds nd.effective_confidence) ∧
    (∀ q b l n, (apply_decay q b l n).status =
      determine_pattern_status defaultThresholds
        (apply_decay q b l n).effective_confidence) := by
  have h1 := detect_some_status g fp thr w now c hc
  refine ⟨h1, ?_, fun q b l n => rfl⟩
  obtain ⟨nd, hnd, hst, heff⟩ :=
    findNode_add_decay_fields g fp eid sev ts (chooseDecayFields (some c))
  refine ⟨nd, ?_, ?_⟩
  · unfold ingest_graph_update
    rw [hc]
    exact hnd
  · rw [hst, heff]
    exact h1

/-- Claim C2, counterexample: an uncorrelated ingest stores the default
fields `(base = 0.5, decay = 1.0, effective = 0.5, status = ACTIVE)` on the
pattern node, but the status recomputed from the stored effective
confidence `0.5` is COOLING (`0.4 ≤ 0.5 < 0.7`), not ACTIVE — so the
stored status does not match the recomputed one immediately after this
`add_observation`. -/
theorem status_default_fields_counterexample :
    detect_correlation emptyGraph "f" 2 300 0 = none ∧
    (∃ nd, findNode (ingest_graph_update emptyGraph "f" "a" "HIGH" 0 2 300 0) "f"
        = some nd ∧
      nd.pattern_status = PatternStatus.ACTIVE ∧
      nd.effective_confidence = 1/2) ∧
    determine_pattern_status defaultThresholds (1/2) = PatternStatus.COOLING ∧
    PatternStatus.ACTIVE ≠ PatternStatus.COOLING := by
  have hobs : get_recent_observations emptyGraph "f" 300 0 = [] := by
    simp [get_recent_observations, emptyGraph, List.mergeSort]
  have hdet : detect_correlation emptyGraph "f" 2 300 0 = none := by
    simp only [detect_correlation]
    rw [dif_pos hobs]
  refine ⟨hdet, ?_, ?_, by decide⟩
  · obtain ⟨nd, hnd, hst, heff⟩ :=
      findNode_add_decay_fields emptyGraph "f" "a" "HIGH" 0 ⟨1/2, 1, 1/2, .ACTIVE⟩
    refine ⟨nd, ?_, hst, heff⟩
    unfold ingest_graph_update
    rw [hdet]
    exact hnd
  · unfold determine_pattern_status defaultThresholds
    norm_num

/-- Witness for `status_matches_effective_after_ingest`: a single-entity
correlation (threshold 1) detected on the one-observation example graph
carries a status matching its effective confidence. -/
theorem status_matches_effective_after_ingest_witness :
    detect_correlation detectExampleGraph "f" 1 300 0 =
      some ⟨"f", 1, 0, "LOW", 1/2, 1, 1/2, 0, .COOLING⟩ ∧
    (⟨"f", 1, 0, "LOW", 1/2, 1, 1/2, 0,
        .COOLING⟩ : CorrelationResult).pattern_status =
      determine_pattern_status defaultThresholds
        (⟨"f", 1, 0, "LOW", 1/2, 1, 1/2, 0,
          .COOLING⟩ : CorrelationResult).effective_confidence := by
  have hobs : get_recent_observations detectExampleGraph "f" 300 0 =
      [⟨"a", 0, "HIGH"⟩] := by
    norm_num [get_recent_observations, detectExampleGraph, List.mergeSort,
      mkEntityNode]
  have hdec : calculate_decay_score 0 0 = 1 := by
    rw [calculate_decay_score_eq]; norm_num
  have heff : calculate_effective_confidence (1/2) 1 = 1/2 := by
    unfold calculate_effective_confidence
    rw [mul_one, max_eq_right (by norm_num), min_eq_right (by norm_num)]
    have h5 : ((5000 : ℤ) : ℚ)/10000 = 1/2 := by norm_num
    rw [← h5, round4_div10000, h5]
  have hc : detect_correlation detectExampleGraph "f" 1 300 0 =
      some ⟨"f", 1, 0, "LOW", 1/2, 1, 1/2, 0, .COOLING⟩ := by
    simp only [detect_correlation, hobs]
    rw [dif_neg (by simp)]
    norm_num [calculate_confidence, confidence_map, apply_decay, hdec, heff,
      determine_pattern_status, defaultThresholds]
  exact ⟨hc, (status_matches_effective_after_ingest detectExampleGraph "f" "b"
    "HIGH" 50 1 300 0 _ hc).1⟩

end BridgeHub
